import Mathlib

/-!
Verification of the MindRep Correlation & Prescription Engine and the
mobile client glue (repository `mindrep`).

The repository under `src/` contains the mobile client (React Native),
the shared SQL schema (`docs/schema.sql`, concatenated into
`mobile/hooks/useMood.ts`), and the client-side hooks.  The backend
engine (`backend/app/services/correlation.py` and `prescription.py`)
is not present; where a claim is decided by that engine, the relevant
definitions below are modelled from the specification and carry a doc
comment starting with `Modelled from the spec:`.

Mood scores and dates are integers; statistics are exact rationals.
-/

set_option allowUnsafeReducibility true in
attribute [semireducible] Rat.add Rat.mul Rat.inv Rat.sub Rat.ofScientific

namespace Mindrep

/-- Modelled from the spec: a mood check-in as seen by the engine —
`timestamp` (day granularity), `mood_score : int[1..10]`, and the tag
sets used by the rule-based fallback (spec section 3, MoodCheckin). -/
structure MoodCheckin where
  timestamp : Int
  mood_score : Int
  manual_tags : List String
  ai_themes : List String
deriving DecidableEq

/-- Modelled from the spec: an exercise session as seen by the engine
(spec section 3, ExerciseSession). -/
structure ExerciseSession where
  date : Int
  exercise_type : String
  duration_minutes : Int
  intensity : String
deriving DecidableEq

/-- Modelled from the spec: a per-exercise-type effect estimate
(spec section 3, Correlation). -/
structure Correlation where
  exercise_type : String
  mood_change_avg : ℚ
  mood_change_pct : ℚ
  correlation_r : ℚ
  p_value : ℚ
  sample_size : Nat
  lag_days : Nat
deriving DecidableEq

/-- Modelled from the spec (section 4.1 step 2): the *pre* mood source is
the most recent check-in strictly before the session date; among equal
timestamps the earliest-listed check-in is kept. -/
def bestPre (date : Int) (checkins : List MoodCheckin) : Option MoodCheckin :=
  checkins.foldl
    (fun acc c =>
      if c.timestamp < date then
        match acc with
        | none => some c
        | some b => if b.timestamp < c.timestamp then some c else some b
      else acc)
    none

/-- Modelled from the spec (section 4.1 step 2): the *post* mood source is
the nearest check-in on or after the lag target, ties broken by earliest
timestamp, within a bounded look-ahead window of 3 days beyond the
target; otherwise the pair is excluded. -/
def bestPost (target : Int) (checkins : List MoodCheckin) : Option MoodCheckin :=
  checkins.foldl
    (fun acc c =>
      if target ≤ c.timestamp ∧ c.timestamp ≤ target + 3 then
        match acc with
        | none => some c
        | some b => if c.timestamp < b.timestamp then some c else some b
      else acc)
    none

/-- Modelled from the spec (section 4.1 steps 2-3): the retained
`(pre mood_score, mood_change)` pairs for one exercise type.  A session
with no qualifying pre or post check-in is excluded; each retained
session contributes exactly one sample. -/
def retainedPairs (lag : Nat) (checkins : List MoodCheckin)
    (sessions : List ExerciseSession) (ty : String) : List (ℚ × ℚ) :=
  (sessions.filter (fun s => s.exercise_type == ty)).filterMap
    (fun s =>
      match bestPre s.date checkins, bestPost (s.date + lag) checkins with
      | some pre, some post =>
          some ((pre.mood_score : ℚ), ((post.mood_score - pre.mood_score : Int) : ℚ))
      | _, _ => none)

/-- The distinct exercise types logged in a session history, one entry
per type (spec section 4.1 step 1: group sessions by `exercise_type`). -/
def exerciseTypes (sessions : List ExerciseSession) : List String :=
  (sessions.map ExerciseSession.exercise_type).dedup

/-- Arithmetic mean of a list of rationals (0 on the empty list; only
applied to lists of length at least 5 by the sample-size gate). -/
def mean (l : List ℚ) : ℚ := l.sum / l.length

/-- Whether all pre mood scores in a retained-pair list are equal to the
first one (the zero-variance case of spec section 4.1 step 6). -/
def constantPre (pairs : List (ℚ × ℚ)) : Bool :=
  match pairs with
  | [] => true
  | p :: rest => rest.all (fun q => q.1 == p.1)

/-- The `(r, p_value)` statistic for a retained-pair list: the
zero-variance convention `r = 0, p = 1` of spec section 4.1 step 6,
otherwise the supplied Pearson statistic. -/
def pearsonOrDegenerate (pearson : List (ℚ × ℚ) → ℚ × ℚ)
    (pairs : List (ℚ × ℚ)) : ℚ × ℚ :=
  if constantPre pairs then ((0 : ℚ), (1 : ℚ)) else pearson pairs

/-- Modelled from the spec (section 4.1 steps 4-6): the correlation row
for one exercise type, or `none` when the retained-pair count is below
the hard sample-size gate of 5. -/
def corrFor (pearson : List (ℚ × ℚ) → ℚ × ℚ) (lag : Nat)
    (checkins : List MoodCheckin) (sessions : List ExerciseSession)
    (ty : String) : Option Correlation :=
  if (retainedPairs lag checkins sessions ty).length < 5 then none
  else
    some { exercise_type := ty
           mood_change_avg :=
             mean ((retainedPairs lag checkins sessions ty).map Prod.snd)
           mood_change_pct :=
             mean ((retainedPairs lag checkins sessions ty).map
               (fun p => p.2 / p.1))
           correlation_r :=
             (pearsonOrDegenerate pearson
               (retainedPairs lag checkins sessions ty)).1
           p_value :=
             (pearsonOrDegenerate pearson
               (retainedPairs lag checkins sessions ty)).2
           sample_size := (retainedPairs lag checkins sessions ty).length
           lag_days := lag }

/-- Modelled from the spec (section 4.1): the Correlation Computer.
Pearson `r` and the two-tailed `p_value` involve square roots and the
t-distribution, so they are supplied by an abstract statistic function
`pearson`; the gate, pairing, averages, sample size and the
zero-variance convention are computed here exactly.  Types whose
retained-pair count is below 5 are dropped (hard gate, step 5). -/
def computeCorrelations (pearson : List (ℚ × ℚ) → ℚ × ℚ) (lag : Nat)
    (checkins : List MoodCheckin) (sessions : List ExerciseSession) :
    List Correlation :=
  (exerciseTypes sessions).filterMap (corrFor pearson lag checkins sessions)

/-- Modelled from the spec (section 4.2 step 1): the significance filter —
`p_value < 0.05`, `sample_size ≥ 5`, `mood_change_avg > 0`. -/
def passesGate (c : Correlation) : Bool :=
  decide (c.p_value < 1/20) && decide (5 ≤ c.sample_size) &&
    decide (0 < c.mood_change_avg)

/-- The correlations surviving the significance filter. -/
def survivors (corrs : List Correlation) : List Correlation :=
  corrs.filter passesGate

/-- Modelled from the spec (section 4.2 step 2): `a` ranks strictly
before `b` when its `mood_change_avg` is larger, with ties broken by
larger `sample_size`, then by lexicographically smaller
`exercise_type`. -/
def rankBefore (a b : Correlation) : Prop :=
  b.mood_change_avg < a.mood_change_avg ∨
    (a.mood_change_avg = b.mood_change_avg ∧
      (b.sample_size < a.sample_size ∨
        (a.sample_size = b.sample_size ∧ a.exercise_type < b.exercise_type)))

instance (a b : Correlation) : Decidable (rankBefore a b) := by
  unfold rankBefore; infer_instance

/-- Modelled from the spec (section 4.2 steps 2-3): select the
top-ranked survivor; the earlier list element is kept when neither
ranks before the other. -/
def pickBest : List Correlation → Option Correlation
  | [] => none
  | c :: cs =>
    match pickBest cs with
    | none => some c
    | some b => if rankBefore c b then some c else some b

/-- Modelled from the spec (section 6): one entry of the static fallback
rule table — a predicate over the latest check-in's mood score and tags,
and the recommendation it yields. -/
structure Rule where
  applies : Int → List String → Bool
  exercise_type : String
  duration : Int
  intensity : String
  reasoning : String

/-- Modelled from the spec (sections 4.2 step 4 and 7): the static
fallback rule table.  The unconditional catch-all default the spec
requires is carried as a separate field, so first-match-wins always
terminates at it. -/
structure RuleTable where
  rules : List Rule
  catchAll : Rule

/-- The most recent check-in by timestamp (earlier-listed wins ties). -/
def latestCheckin (checkins : List MoodCheckin) : Option MoodCheckin :=
  checkins.foldl
    (fun acc c =>
      match acc with
      | none => some c
      | some b => if b.timestamp < c.timestamp then some c else some b)
    none

/-- Modelled from the spec (section 4.2 step 4): first-match-wins over
the rule table, keyed by the latest check-in's mood score and its
`manual_tags`/`ai_themes`; with no check-in at all, or no matching rule,
the catch-all applies. -/
def firstMatch (rt : RuleTable) (latest : Option MoodCheckin) : Rule :=
  match latest with
  | none => rt.catchAll
  | some c =>
      (rt.rules.find? (fun r => r.applies c.mood_score (c.manual_tags ++ c.ai_themes))).getD
        rt.catchAll

/-- Clamp a rational into `[0, 1]`. -/
def clamp01 (x : ℚ) : ℚ := max 0 (min 1 x)

/-- Modelled from the spec (section 4.2 step 5): confidence of a
correlation-sourced prescription,
`clamp(0, 1, (1 - p_value) * min(1, sample_size / 20))`. -/
def correlationConfidence (p : ℚ) (n : Nat) : ℚ :=
  clamp01 ((1 - p) * min 1 ((n : ℚ) / 20))

/-- Modelled from the spec (section 4.2 step 5): the fixed confidence
constant for `source = "rule_based"` prescriptions; the spec names the
value 0.4. -/
def ruleBasedConfidence : ℚ := 2/5

/-- Modelled from the spec (section 3): the prescription record the
selector produces. -/
structure Prescription where
  exercise_type : String
  suggested_duration_minutes : Int
  suggested_intensity : String
  reasoning : String
  confidence : ℚ
  source : String
deriving DecidableEq

/-- Modelled from the spec: the per-type global default duration used
when the user has at most one session of the chosen type; the spec's
only stated default is a 20-minute session. -/
def globalDefaultDuration (_ty : String) : Int := 20

/-- Modelled from the spec: the per-type global default intensity used
when the user has at most one session of the chosen type; the spec's
only stated default is moderate. -/
def globalDefaultIntensity (_ty : String) : String := "moderate"

/-- The most frequent element of a list (earlier-listed wins ties),
with a default for the empty list. -/
def modeOf {α : Type} [BEq α] (l : List α) (dflt : α) : α :=
  match l with
  | [] => dflt
  | x :: _ => l.foldl (fun best y => if l.count best < l.count y then y else best) x

/-- Modelled from the spec (section 4.2 step 3): suggested duration is
the mode of the user's own past durations for the chosen type, falling
back to the global default when the user has at most one such session. -/
def modeDuration (sessions : List ExerciseSession) (ty : String) : Int :=
  let ds := (sessions.filter (fun s => s.exercise_type == ty)).map
    ExerciseSession.duration_minutes
  if ds.length ≤ 1 then globalDefaultDuration ty
  else modeOf ds (globalDefaultDuration ty)

/-- Modelled from the spec (section 4.2 step 3): suggested intensity is
the mode of the user's own past intensities for the chosen type, falling
back to the global default when the user has at most one such session. -/
def modeIntensity (sessions : List ExerciseSession) (ty : String) : String :=
  let is := (sessions.filter (fun s => s.exercise_type == ty)).map
    ExerciseSession.intensity
  if is.length ≤ 1 then globalDefaultIntensity ty
  else modeOf is (globalDefaultIntensity ty)

/-- Modelled from the spec (section 4.2 step 3): the fixed narrative
template referencing the observed effect and sample size. -/
def reasoningTemplate (c : Correlation) : String :=
  "Your mood has improved on average after " ++ c.exercise_type ++
    " across " ++ toString c.sample_size ++ " logged sessions."

/-- Modelled from the spec (section 4.2 step 4): the prescription built
from the matched fallback rule; `source = "rule_based"`. -/
def ruleBasedPrescription (rt : RuleTable) (latest : Option MoodCheckin) :
    Prescription :=
  let r := firstMatch rt latest
  { exercise_type := r.exercise_type
    suggested_duration_minutes := r.duration
    suggested_intensity := r.intensity
    reasoning := r.reasoning
    confidence := ruleBasedConfidence
    source := "rule_based" }

/-- Modelled from the spec (section 4.2): the Prescription Selector.
It filters and ranks the computed correlations; when a survivor exists
the top-ranked one becomes a `source = "correlation"` prescription,
otherwise the rule-based fallback applies.  The function is total: it
produces exactly one prescription for every input. -/
def prescribe (pearson : List (ℚ × ℚ) → ℚ × ℚ) (lag : Nat)
    (checkins : List MoodCheckin) (sessions : List ExerciseSession)
    (rt : RuleTable) : Prescription :=
  match pickBest (survivors (computeCorrelations pearson lag checkins sessions)) with
  | some c =>
      { exercise_type := c.exercise_type
        suggested_duration_minutes := modeDuration sessions c.exercise_type
        suggested_intensity := modeIntensity sessions c.exercise_type
        reasoning := reasoningTemplate c
        confidence := correlationConfidence c.p_value c.sample_size
        source := "correlation" }
  | none => ruleBasedPrescription rt (latestCheckin checkins)

/-! ## The SQL schema boundary (docs/schema.sql)

Rows as they stand in the database; a `none` field is SQL NULL.  A SQL
`CHECK` whose condition evaluates to NULL (because the checked column is
NULL) does not reject the row, so nullable checked columns accept NULL. -/

/-- A candidate row for the `exercise_sessions` table (docs/schema.sql):
`user_id`, `date`, `exercise_type`, `duration_minutes` are NOT NULL;
`intensity` has `CHECK (intensity IN ('low', 'moderate', 'vigorous'))`
but is nullable; the remaining columns are unconstrained. -/
structure ExerciseSessionRow where
  user_id : Option String
  date : Option Int
  exercise_type : Option String
  duration_minutes : Option Int
  intensity : Option String
  avg_heart_rate : Option ℚ
  calories : Option ℚ
  source : Option String
  notes : Option String
deriving DecidableEq

/-- SQL semantics of `CHECK (col IN list)` on a nullable column: a NULL
value yields an unknown check result, which does not reject the row. -/
def sqlCheckIn (v : Option String) (allowed : List String) : Bool :=
  match v with
  | none => true
  | some s => allowed.contains s

/-- Whether the `exercise_sessions` table accepts a row: exactly the
NOT NULL and CHECK constraints of docs/schema.sql.  The table declares
no constraint on the value of `duration_minutes`. -/
def exerciseSessionsRowAccepted (r : ExerciseSessionRow) : Bool :=
  r.user_id.isSome && r.date.isSome && r.exercise_type.isSome &&
    r.duration_minutes.isSome &&
    sqlCheckIn r.intensity ["low", "moderate", "vigorous"]

/-- A concrete candidate row with a zero duration: every NOT NULL column
present and a valid intensity, but `duration_minutes = 0`. -/
def zeroDurationRow : ExerciseSessionRow :=
  { user_id := some "u1"
    date := some 100
    exercise_type := some "running"
    duration_minutes := some 0
    intensity := some "low"
    avg_heart_rate := none
    calories := none
    source := some "manual"
    notes := none }

/-! ## Mood check-in records and their AI enrichment -/

/-- A row of the `mood_checkins` table (docs/schema.sql): `mood_score`
NOT NULL with `CHECK (mood_score BETWEEN 1 AND 10)`; the `ai_*` columns
are nullable. -/
structure MoodCheckinRow where
  mood_score : Int
  journal_text : Option String
  manual_tags : Option (List String)
  ai_mood_label : Option String
  ai_intensity : Option Int
  ai_themes : Option (List String)
  ai_confidence : Option ℚ
  ai_processed : Bool
deriving DecidableEq

/-- The AI classification result (mobile/hooks/useMood.ts,
`MoodClassification`). -/
structure MoodClassification where
  mood_label : String
  intensity : Int
  themes : List String
  confidence : ℚ
deriving DecidableEq

/-- Modelled from the spec: the backend check-in creation endpoint
(`backend/app/routers`, not under src/) validates `mood_score ∈ [1,10]`
(the schema's CHECK constraint) and stores a fresh row with all `ai_*`
columns NULL. -/
def createCheckin (score : Int) (journal : Option String)
    (tags : Option (List String)) : Option MoodCheckinRow :=
  if 1 ≤ score ∧ score ≤ 10 then
    some { mood_score := score
           journal_text := journal
           manual_tags := tags
           ai_mood_label := none
           ai_intensity := none
           ai_themes := none
           ai_confidence := none
           ai_processed := false }
  else none

/-- Modelled from the spec (section 3): the asynchronous enrichment step
(`backend/app/services/mood_classifier.py`, not under src/) writes the
four `ai_*` fields together, at most once. -/
def enrich (r : MoodCheckinRow) (c : MoodClassification) : MoodCheckinRow :=
  if r.ai_processed then r
  else
    { r with
      ai_mood_label := some c.mood_label
      ai_intensity := some c.intensity
      ai_themes := some c.themes
      ai_confidence := some c.confidence
      ai_processed := true }

/-- The mood check-in records producible by the modelled pipeline:
created by the validated endpoint, then enriched zero or more times. -/
inductive ValidRecord : MoodCheckinRow → Prop where
  | created : ∀ score journal tags r,
      createCheckin score journal tags = some r → ValidRecord r
  | enriched : ∀ r c, ValidRecord r → ValidRecord (enrich r c)

/-- The `ai_*` fields are all set or all null. -/
def aiAllOrNothing (r : MoodCheckinRow) : Prop :=
  (r.ai_mood_label.isSome ∧ r.ai_intensity.isSome ∧
    r.ai_themes.isSome ∧ r.ai_confidence.isSome) ∨
  (r.ai_mood_label = none ∧ r.ai_intensity = none ∧
    r.ai_themes = none ∧ r.ai_confidence = none)

/-! ## The mobile API client (mobile/services/api.ts) -/

/-- An HTTP response as `apiFetch` consumes it: the `ok` flag, the
numeric status, the body text used for error messages, and the parsed
JSON value returned on success. -/
structure HttpResponse (α : Type) where
  ok : Bool
  status : Nat
  bodyText : String
  json : α

/-- The `Authorization` header list built by `authHeader` in
mobile/services/api.ts: empty without a session, otherwise a single
bearer-token entry. -/
def authHeader : Option String → List (String × String)
  | none => []
  | some token => [("Authorization", "Bearer " ++ token)]

/-- The header object built by `apiFetch` in mobile/services/api.ts:
`Content-Type: application/json` first, then the auth header, then the
caller's headers; later entries override earlier ones on lookup. -/
def apiFetchHeaders (auth callerHeaders : List (String × String)) :
    List (String × String) :=
  [("Content-Type", "application/json")] ++ auth ++ callerHeaders

/-- Header lookup with JavaScript object-spread semantics: the last
binding of a key wins. -/
def getHeader (hs : List (String × String)) (k : String) : Option String :=
  (hs.reverse.find? (fun p => p.1 == k)).map Prod.snd

/-- The response handling of `apiFetch` in mobile/services/api.ts: a
non-ok response throws an error carrying the status and body text, an
ok response returns the parsed JSON body. -/
def apiFetch {α : Type} (res : HttpResponse α) : Except String α :=
  if res.ok then Except.ok res.json
  else Except.error ("API " ++ toString res.status ++ ": " ++ res.bodyText)

/-! ## The mobile hooks (mobile/hooks/useMood.ts, usePrescription) -/

/-- The check-in API response type (mobile/hooks/useMood.ts,
`CheckinResponse`). -/
structure CheckinResponse where
  id : String
  created_at : String
  mood_score : Int
  journal_text_stored : Bool
  ai_processed : Bool
  classification : Option MoodClassification
  manual_tags : Option (List String)
deriving DecidableEq

/-- The prescription record type of the mobile client
(usePrescription, `MoodPrescription`). -/
structure MoodPrescription where
  id : String
  created_at : String
  exercise_type : String
  suggested_duration_minutes : Int
  suggested_intensity : String
  reasoning : String
  confidence : ℚ
  source : String
deriving DecidableEq

/-- The prescription API response type (usePrescription,
`PrescriptionResponse`). -/
structure PrescriptionResponse where
  prescription : Option MoodPrescription
  has_data : Bool
  disclaimer : String
deriving DecidableEq

/-- The state held by `useMoodCheckin`: `status`, `errorMessage`,
`result`. -/
structure MoodCheckinState where
  status : String
  errorMessage : Option String
  result : Option CheckinResponse
deriving DecidableEq

/-- One completed run of `submit` in `useMoodCheckin`: status and error
are reset, then the awaited API call either yields a response (success
path sets `result` and `status`) or throws (error path records the
message; `result` is left as it was). -/
def moodCheckinSubmit (st : MoodCheckinState)
    (outcome : Except String CheckinResponse) : MoodCheckinState :=
  let loading : MoodCheckinState :=
    { st with status := "loading", errorMessage := none }
  match outcome with
  | Except.ok d => { loading with result := some d, status := "success" }
  | Except.error m => { loading with errorMessage := some m, status := "error" }

/-- The `reset` function of `useMoodCheckin`. -/
def moodCheckinReset (_st : MoodCheckinState) : MoodCheckinState :=
  { status := "idle", errorMessage := none, result := none }

/-- The state held by `usePrescription`: `status`, `errorMessage`,
`data`. -/
structure PrescriptionState where
  status : String
  errorMessage : Option String
  data : Option PrescriptionResponse
deriving DecidableEq

/-- One completed run of `fetch` in `usePrescription`, mirroring the
submit path of `useMoodCheckin` with `data` in place of `result`. -/
def prescriptionFetch (st : PrescriptionState)
    (outcome : Except String PrescriptionResponse) : PrescriptionState :=
  let loading : PrescriptionState :=
    { st with status := "loading", errorMessage := none }
  match outcome with
  | Except.ok d => { loading with data := some d, status := "success" }
  | Except.error m => { loading with errorMessage := some m, status := "error" }

/-- The `reset` function of `usePrescription`. -/
def prescriptionReset (_st : PrescriptionState) : PrescriptionState :=
  { status := "idle", errorMessage := none, data := none }

/-! ## The check-in screen tag selector (mobile/app/(tabs)/prescription.tsx) -/

/-- `toggleTag` from the check-in screen: if the key is already selected
it is filtered out, otherwise it is appended. -/
def toggleTag (key : String) (prev : List String) : List String :=
  if prev.contains key then prev.filter (fun t => t != key)
  else prev ++ [key]

/-! ## Concrete sample data used by the witness theorems -/

/-- A degenerate Pearson statistic usable for concrete evaluation:
always `(r, p) = (0, 0)`. -/
def pearsonZero : List (ℚ × ℚ) → ℚ × ℚ := fun _ => (0, 0)

/-- Ten check-ins: for each of five session days `d`, a pre check-in at
`d - 1` (scores 4 and 5 alternating) and a post check-in at `d + 1`
(score 7). -/
def witCheckins : List MoodCheckin :=
  [⟨9, 4, [], []⟩, ⟨11, 7, [], []⟩,
   ⟨19, 5, [], []⟩, ⟨21, 7, [], []⟩,
   ⟨29, 4, [], []⟩, ⟨31, 7, [], []⟩,
   ⟨39, 5, [], []⟩, ⟨41, 7, [], []⟩,
   ⟨49, 4, [], []⟩, ⟨51, 7, [], []⟩]

/-- Five running sessions on days 10, 20, 30, 40, 50. -/
def witSessions : List ExerciseSession :=
  [⟨10, "running", 30, "moderate"⟩, ⟨20, "running", 30, "moderate"⟩,
   ⟨30, "running", 30, "moderate"⟩, ⟨40, "running", 30, "moderate"⟩,
   ⟨50, "running", 30, "moderate"⟩]

/-- A single yoga session, below the sample-size gate. -/
def sessYogaW : ExerciseSession := ⟨3, "yoga", 30, "low"⟩

/-- The spec's example catch-all rule: a 20-minute moderate walk. -/
def walkRule : Rule :=
  { applies := fun _ _ => true
    exercise_type := "walking"
    duration := 20
    intensity := "moderate"
    reasoning := "A short walk supports wellbeing." }

/-- A rule table consisting only of the catch-all. -/
def defaultRuleTable : RuleTable := { rules := [], catchAll := walkRule }

/-- A Pearson statistic yielding a significant `p = 0.01` for concrete
Scenario D evaluation. -/
def pearsonD : List (ℚ × ℚ) → ℚ × ℚ := fun _ => (0, 1/100)

/-- Scenario D check-ins: around each session day `d` of
`witSessionsD`, a pre check-in at `d - 1` (scores alternating 4, 5) and
a post check-in at `d + 1` two points higher. -/
def witCheckinsD : List MoodCheckin :=
  [⟨99, 4, [], []⟩, ⟨101, 6, [], []⟩, ⟨109, 5, [], []⟩, ⟨111, 7, [], []⟩,
   ⟨119, 4, [], []⟩, ⟨121, 6, [], []⟩, ⟨129, 5, [], []⟩, ⟨131, 7, [], []⟩,
   ⟨139, 4, [], []⟩, ⟨141, 6, [], []⟩, ⟨149, 5, [], []⟩, ⟨151, 7, [], []⟩,
   ⟨159, 4, [], []⟩, ⟨161, 6, [], []⟩, ⟨169, 5, [], []⟩, ⟨171, 7, [], []⟩,
   ⟨199, 4, [], []⟩, ⟨201, 6, [], []⟩, ⟨209, 5, [], []⟩, ⟨211, 7, [], []⟩,
   ⟨219, 4, [], []⟩, ⟨221, 6, [], []⟩, ⟨229, 5, [], []⟩, ⟨231, 7, [], []⟩,
   ⟨239, 4, [], []⟩, ⟨241, 6, [], []⟩, ⟨249, 5, [], []⟩, ⟨251, 7, [], []⟩,
   ⟨259, 4, [], []⟩, ⟨261, 6, [], []⟩, ⟨269, 5, [], []⟩, ⟨271, 7, [], []⟩,
   ⟨279, 4, [], []⟩, ⟨281, 6, [], []⟩, ⟨289, 5, [], []⟩, ⟨291, 7, [], []⟩,
   ⟨299, 4, [], []⟩, ⟨301, 6, [], []⟩, ⟨309, 5, [], []⟩, ⟨311, 7, [], []⟩]

/-- Scenario D sessions: 8 alpha sessions and 12 beta sessions, every
one followed by a +2 mood change. -/
def witSessionsD : List ExerciseSession :=
  [⟨100, "alpha", 30, "moderate"⟩, ⟨110, "alpha", 30, "moderate"⟩,
   ⟨120, "alpha", 30, "moderate"⟩, ⟨130, "alpha", 30, "moderate"⟩,
   ⟨140, "alpha", 30, "moderate"⟩, ⟨150, "alpha", 30, "moderate"⟩,
   ⟨160, "alpha", 30, "moderate"⟩, ⟨170, "alpha", 30, "moderate"⟩,
   ⟨200, "beta", 30, "moderate"⟩, ⟨210, "beta", 30, "moderate"⟩,
   ⟨220, "beta", 30, "moderate"⟩, ⟨230, "beta", 30, "moderate"⟩,
   ⟨240, "beta", 30, "moderate"⟩, ⟨250, "beta", 30, "moderate"⟩,
   ⟨260, "beta", 30, "moderate"⟩, ⟨270, "beta", 30, "moderate"⟩,
   ⟨280, "beta", 30, "moderate"⟩, ⟨290, "beta", 30, "moderate"⟩,
   ⟨300, "beta", 30, "moderate"⟩, ⟨310, "beta", 30, "moderate"⟩]

/-- The correlation row the Scenario D data yields for alpha:
`mood_change_avg = 2`, `sample_size = 8`. -/
def corrAlphaD : Correlation := ⟨"alpha", 2, 9/20, 0, 1/100, 8, 1⟩

/-- The correlation row the Scenario D data yields for beta:
`mood_change_avg = 2`, `sample_size = 12`. -/
def corrBetaD : Correlation := ⟨"beta", 2, 9/20, 0, 1/100, 12, 1⟩

/-- A freshly created, unenriched check-in row with score 7. -/
def sampleCheckinRow : MoodCheckinRow :=
  ⟨7, none, none, none, none, none, none, false⟩

/-- A failing HTTP response. -/
def errResponse : HttpResponse Int := ⟨false, 500, "boom", 0⟩

/-- A successful HTTP response with JSON value 7. -/
def okResponse : HttpResponse Int := ⟨true, 200, "ok-body", 7⟩

/-- A sample check-in API response. -/
def checkinResponseW : CheckinResponse :=
  ⟨"id1", "2026-01-01", 7, false, false, none, none⟩

/-- A sample prescription API response. -/
def prescriptionResponseW : PrescriptionResponse := ⟨none, false, "wellness"⟩

/-- The initial state of `useMoodCheckin`. -/
def idleMoodState : MoodCheckinState := ⟨"idle", none, none⟩

/-- The initial state of `usePrescription`. -/
def idlePrescriptionState : PrescriptionState := ⟨"idle", none, none⟩

/-! ## Helper lemmas -/

/-- A correlation row produced by `corrFor` carries the exercise type it
was computed for, and its type's retained-pair count meets the gate. -/
theorem corrFor_eq_some {pearson lag checkins sessions ty c}
    (h : corrFor pearson lag checkins sessions ty = some c) :
    c.exercise_type = ty ∧
      5 ≤ (retainedPairs lag checkins sessions ty).length := by
  unfold corrFor at h
  split at h
  · cases h
  · cases h
    rename_i hge
    exact ⟨rfl, Nat.le_of_not_lt hge⟩

/-- Every emitted correlation's exercise type is one of the logged
exercise types, and its retained-pair count meets the gate. -/
theorem computeCorrelations_mem {pearson lag checkins sessions c}
    (h : c ∈ computeCorrelations pearson lag checkins sessions) :
    c.exercise_type ∈ exerciseTypes sessions ∧
      5 ≤ (retainedPairs lag checkins sessions c.exercise_type).length := by
  unfold computeCorrelations at h
  rw [List.mem_filterMap] at h
  obtain ⟨ty, hty, hf⟩ := h
  obtain ⟨hc, hge⟩ := corrFor_eq_some hf
  subst hc
  exact ⟨hty, hge⟩

/-- A logged exercise type comes from some session in the history. -/
theorem mem_exerciseTypes {sessions ty} (h : ty ∈ exerciseTypes sessions) :
    ∃ s ∈ sessions, s.exercise_type = ty := by
  unfold exerciseTypes at h
  rw [List.mem_dedup, List.mem_map] at h
  exact h

/-! ## C1: the sample-size gate -/

/-- C1: for every user history and every exercise type whose count of
retained `(session, mood_change)` pairs is below 5, the Correlation
Computer emits no correlation row for that exercise type. -/
theorem gate_no_correlation_row (pearson : List (ℚ × ℚ) → ℚ × ℚ)
    (lag : Nat) (checkins : List MoodCheckin)
    (sessions : List ExerciseSession) (ty : String)
    (h : (retainedPairs lag checkins sessions ty).length < 5) :
    ty ∉ (computeCorrelations pearson lag checkins sessions).map
      Correlation.exercise_type := by
  intro hmem
  rw [List.mem_map] at hmem
  obtain ⟨c, hc, hcty⟩ := hmem
  obtain ⟨_, hge⟩ := computeCorrelations_mem hc
  rw [hcty] at hge
  exact absurd h (Nat.not_lt.mpr hge)

/-- Witness for C1: a single yoga session yields 0 retained pairs and no
correlation row for yoga. -/
theorem gate_no_correlation_row_witness :
    (retainedPairs 1 [] [sessYogaW] "yoga").length < 5 ∧
      "yoga" ∉ (computeCorrelations pearsonZero 1 [] [sessYogaW]).map
        Correlation.exercise_type :=
  ⟨by decide,
    gate_no_correlation_row pearsonZero 1 [] [sessYogaW] "yoga" (by decide)⟩

/-! ## C2: totality on empty history -/

/-- C2: the Prescription Selector is a total function producing exactly
one prescription for every input (it never fails); in particular, on a
user with zero check-ins and zero sessions it returns the rule table's
catch-all fallback with `source = "rule_based"`. -/
theorem empty_history_rule_based (pearson : List (ℚ × ℚ) → ℚ × ℚ)
    (lag : Nat) (rt : RuleTable) :
    prescribe pearson lag [] [] rt = ruleBasedPrescription rt none ∧
      (prescribe pearson lag [] [] rt).source = "rule_based" :=
  ⟨rfl, rfl⟩

/-! ## C3: the rule-based confidence constant -/

/-- Counterexample for C3: the fixed rule-based confidence constant
(0.4, spec section 4.2 step 5) is not strictly less than the
correlation confidence at the significance gate with `sample_size = 5`
and `p_value = 0.049`. -/
theorem ruleBased_conf_claim_false :
    ¬ ruleBasedConfidence < correlationConfidence (49/1000) 5 := by decide

/-- C3 (amended): the correlation confidence at the significance gate
with `sample_size = 5`, `p_value = 0.049` equals `951/4000 = 0.23775`,
and the fixed rule-based constant `0.4` is strictly *greater* than it,
so the spec's ordering invariant fails at its own example constant. -/
theorem ruleBased_conf_exceeds_gate :
    correlationConfidence (49/1000) 5 = 951/4000 ∧
      ruleBasedConfidence = 2/5 ∧
      correlationConfidence (49/1000) 5 < ruleBasedConfidence := by decide

/-! ## Ranking order lemmas -/

/-- Survivors of the significance filter come from the input list. -/
theorem survivors_subset {corrs : List Correlation} {c : Correlation}
    (h : c ∈ survivors corrs) : c ∈ corrs :=
  (List.mem_filter.mp h).1

/-- The ranking order is irreflexive. -/
theorem rankBefore_irrefl (a : Correlation) : ¬ rankBefore a a := by
  unfold rankBefore
  simp

/-- The ranking order is transitive. -/
theorem rankBefore_trans {a b c : Correlation}
    (hab : rankBefore a b) (hbc : rankBefore b c) : rankBefore a c := by
  unfold rankBefore at hab hbc ⊢
  rcases hab with h1 | ⟨e1, h1⟩ <;> rcases hbc with h2 | ⟨e2, h2⟩
  · exact Or.inl (lt_trans h2 h1)
  · exact Or.inl (by rw [← e2]; exact h1)
  · exact Or.inl (by rw [e1]; exact h2)
  · refine Or.inr ⟨e1.trans e2, ?_⟩
    rcases h1 with hs1 | ⟨es1, ht1⟩ <;> rcases h2 with hs2 | ⟨es2, ht2⟩
    · exact Or.inl (lt_trans hs2 hs1)
    · exact Or.inl (by rw [← es2]; exact hs1)
    · exact Or.inl (by rw [es1]; exact hs2)
    · exact Or.inr ⟨es1.trans es2, lt_trans ht1 ht2⟩

/-- Two correlations with different exercise types are comparable: one
of them ranks strictly before the other. -/
theorem rankBefore_total_of_type_ne {a b : Correlation}
    (h : a.exercise_type ≠ b.exercise_type) :
    rankBefore a b ∨ rankBefore b a := by
  unfold rankBefore
  rcases lt_trichotomy a.mood_change_avg b.mood_change_avg with h1 | h1 | h1
  · exact Or.inr (Or.inl h1)
  · rcases lt_trichotomy a.sample_size b.sample_size with h2 | h2 | h2
    · exact Or.inr (Or.inr ⟨h1.symm, Or.inl h2⟩)
    · rcases lt_or_gt_of_ne h with h3 | h3
      · exact Or.inl (Or.inr ⟨h1, Or.inr ⟨h2, h3⟩⟩)
      · exact Or.inr (Or.inr ⟨h1.symm, Or.inr ⟨h2.symm, h3⟩⟩)
    · exact Or.inl (Or.inr ⟨h1, Or.inl h2⟩)
  · exact Or.inl (Or.inl h1)

/-- `pickBest` returns `none` only on the empty list. -/
theorem pickBest_eq_none {l : List Correlation}
    (h : pickBest l = none) : l = [] := by
  cases l with
  | nil => rfl
  | cons a as =>
    unfold pickBest at h
    cases has : pickBest as with
    | none => rw [has] at h; simp only [] at h; cases h
    | some b =>
      rw [has] at h
      simp only [] at h
      by_cases hab : rankBefore a b
      · rw [if_pos hab] at h; cases h
      · rw [if_neg hab] at h; cases h

/-- The selected correlation is an element of the survivor list. -/
theorem pickBest_mem : ∀ {l : List Correlation} {m : Correlation},
    pickBest l = some m → m ∈ l := by
  intro l
  induction l with
  | nil => intro m h; cases h
  | cons a as ih =>
    intro m h
    unfold pickBest at h
    cases has : pickBest as with
    | none =>
      rw [has] at h
      simp only [] at h
      cases h
      exact List.mem_cons_self a as
    | some b =>
      rw [has] at h
      simp only [] at h
      by_cases hab : rankBefore a b
      · rw [if_pos hab] at h
        cases h
        exact List.mem_cons_self a as
      · rw [if_neg hab] at h
        cases h
        exact List.mem_cons_of_mem a (ih has)

/-- No element of the survivor list ranks strictly before the selected
correlation. -/
theorem pickBest_not_beaten : ∀ {l : List Correlation} {m : Correlation},
    pickBest l = some m → ∀ x ∈ l, ¬ rankBefore x m := by
  intro l
  induction l with
  | nil => intro m h; cases h
  | cons a as ih =>
    intro m h x hx
    unfold pickBest at h
    cases has : pickBest as with
    | none =>
      rw [has] at h
      simp only [] at h
      cases h
      have hnil : as = [] := pickBest_eq_none has
      subst hnil
      rcases List.mem_cons.mp hx with rfl | hx2
      · exact rankBefore_irrefl x
      · cases hx2
    | some b =>
      rw [has] at h
      simp only [] at h
      by_cases hab : rankBefore a b
      · rw [if_pos hab] at h
        cases h
        rcases List.mem_cons.mp hx with rfl | hx2
        · exact rankBefore_irrefl x
        · intro hxa
          exact ih has x hx2 (rankBefore_trans hxa hab)
      · rw [if_neg hab] at h
        cases h
        rcases List.mem_cons.mp hx with rfl | hx2
        · exact hab
        · exact ih has x hx2

/-! ## C4: correlation prescriptions only for logged types -/

/-- C4: whenever the Prescription Selector returns a prescription with
`source = "correlation"`, the prescribed exercise type occurs in at
least one session of the user's history. -/
theorem correlation_source_logged (pearson : List (ℚ × ℚ) → ℚ × ℚ)
    (lag : Nat) (checkins : List MoodCheckin)
    (sessions : List ExerciseSession) (rt : RuleTable)
    (h : (prescribe pearson lag checkins sessions rt).source = "correlation") :
    ∃ s ∈ sessions, s.exercise_type =
      (prescribe pearson lag checkins sessions rt).exercise_type := by
  unfold prescribe at h ⊢
  cases hp : pickBest
      (survivors (computeCorrelations pearson lag checkins sessions)) with
  | none =>
    rw [hp] at h
    exact absurd h (by simp [ruleBasedPrescription])
  | some c =>
    rw [hp] at h
    have hmem : c ∈ computeCorrelations pearson lag checkins sessions :=
      survivors_subset (pickBest_mem hp)
    exact mem_exerciseTypes (computeCorrelations_mem hmem).1

/-- Witness for C4: five running sessions each followed by a mood lift
produce a `source = "correlation"` prescription for running, a type
present in the session history. -/
theorem correlation_source_logged_witness :
    (prescribe pearsonZero 1 witCheckins witSessions
        defaultRuleTable).source = "correlation" ∧
      ∃ s ∈ witSessions, s.exercise_type =
        (prescribe pearsonZero 1 witCheckins witSessions
          defaultRuleTable).exercise_type :=
  ⟨by decide,
    correlation_source_logged pearsonZero 1 witCheckins witSessions
      defaultRuleTable (by decide)⟩

/-! ## C5: the selector picks the unique ranking maximum -/

/-- On any list with pairwise-distinct exercise types, `pickBest`
selects an element that ranks strictly before every other element. -/
theorem pickBest_max_of_pairwise (l : List Correlation)
    (cOther m : Correlation)
    (hnd : l.Pairwise (fun a b => a.exercise_type ≠ b.exercise_type))
    (hm : pickBest l = some m) (hc : cOther ∈ l) (hne : cOther ≠ m) :
    m ∈ l ∧ rankBefore m cOther := by
  refine ⟨pickBest_mem hm, ?_⟩
  have hmmem : m ∈ l := pickBest_mem hm
  have hsymm : Symmetric (fun a b : Correlation =>
      a.exercise_type ≠ b.exercise_type) := fun _ _ h e => h e.symm
  have hty : cOther.exercise_type ≠ m.exercise_type :=
    hnd.forall hsymm hc hmmem hne
  rcases rankBefore_total_of_type_ne hty with h | h
  · exact absurd h (pickBest_not_beaten hm cOther hc)
  · exact h

/-- The rows of one Correlation Computer run carry pairwise-distinct
exercise types: one row per logged type. -/
theorem computeCorrelations_types_pairwise (pearson : List (ℚ × ℚ) → ℚ × ℚ)
    (lag : Nat) (checkins : List MoodCheckin)
    (sessions : List ExerciseSession) :
    (computeCorrelations pearson lag checkins sessions).Pairwise
      (fun a b => a.exercise_type ≠ b.exercise_type) :=
  List.Pairwise.filterMap _
    (fun _ _ hne c hc c2 hc2 => by
      obtain ⟨e, _⟩ := corrFor_eq_some hc
      obtain ⟨e2, _⟩ := corrFor_eq_some hc2
      rw [e, e2]; exact hne)
    (List.nodup_dedup _)

/-- Survivors of the significance filter still carry pairwise-distinct
exercise types. -/
theorem survivors_types_pairwise (pearson : List (ℚ × ℚ) → ℚ × ℚ)
    (lag : Nat) (checkins : List MoodCheckin)
    (sessions : List ExerciseSession) :
    (survivors (computeCorrelations pearson lag checkins sessions)).Pairwise
      (fun a b => a.exercise_type ≠ b.exercise_type) :=
  (computeCorrelations_types_pairwise pearson lag checkins sessions).filter
    passesGate

/-- C5: the selected survivor ranks strictly before every other
survivor under the order `mood_change_avg` descending, then
`sample_size` descending, then `exercise_type` ascending — the selector
picks the unique maximum of the survivor set. -/
theorem selector_ranking (pearson : List (ℚ × ℚ) → ℚ × ℚ) (lag : Nat)
    (checkins : List MoodCheckin) (sessions : List ExerciseSession)
    (cOther m : Correlation)
    (hm : pickBest
      (survivors (computeCorrelations pearson lag checkins sessions)) = some m)
    (hc : cOther ∈ survivors (computeCorrelations pearson lag checkins sessions))
    (hne : cOther ≠ m) :
    m ∈ survivors (computeCorrelations pearson lag checkins sessions) ∧
      rankBefore m cOther :=
  pickBest_max_of_pairwise _ cOther m
    (survivors_types_pairwise pearson lag checkins sessions) hm hc hne

/-- Witness for C5 (Scenario D): two exercise types pass the gate tied
at `mood_change_avg = 2` with sample sizes 8 and 12 — the selector
picks the `sample_size = 12` row, which ranks before the other. -/
theorem selector_ranking_witness :
    pickBest
        (survivors (computeCorrelations pearsonD 1 witCheckinsD witSessionsD))
        = some corrBetaD ∧
      corrBetaD.sample_size = 12 ∧
      (corrBetaD ∈
          survivors (computeCorrelations pearsonD 1 witCheckinsD witSessionsD) ∧
        rankBefore corrBetaD corrAlphaD) :=
  ⟨by decide, by decide,
    selector_ranking pearsonD 1 witCheckinsD witSessionsD corrAlphaD corrBetaD
      (by decide) (by decide) (by decide)⟩

/-! ## C6: the schema does not reject non-positive durations -/

/-- C6 (code bug): the `exercise_sessions` table accepts a row whose
`duration_minutes` is 0, because the schema declares no
`CHECK (duration_minutes > 0)`; it likewise accepts a NULL intensity,
since a CHECK on a NULL column does not reject the row.  This
contradicts the documented boundary rejection of non-positive
durations. -/
theorem schema_accepts_zero_duration :
    exerciseSessionsRowAccepted zeroDurationRow = true ∧
      zeroDurationRow.duration_minutes = some 0 ∧
      exerciseSessionsRowAccepted
        { zeroDurationRow with intensity := none } = true := by
  decide

/-! ## C7: check-in record invariants -/

/-- C7: every mood check-in record produced by the modelled pipeline
(validated creation, then at-most-once joint AI enrichment) has
`mood_score` in `[1, 10]` and its four `ai_*` fields all set or all
null. -/
theorem checkin_invariant {r : MoodCheckinRow} (h : ValidRecord r) :
    (1 ≤ r.mood_score ∧ r.mood_score ≤ 10) ∧ aiAllOrNothing r := by
  induction h with
  | created score journal tags r hc =>
    unfold createCheckin at hc
    split at hc
    · cases hc
      rename_i hrange
      exact ⟨hrange, Or.inr ⟨rfl, rfl, rfl, rfl⟩⟩
    · cases hc
  | enriched r c _ ih =>
    unfold enrich
    split
    · exact ih
    · exact ⟨ih.1, Or.inl ⟨rfl, rfl, rfl, rfl⟩⟩

/-- Witness for C7: a freshly created check-in with score 7 satisfies
the invariant. -/
theorem checkin_invariant_witness :
    (1 ≤ sampleCheckinRow.mood_score ∧ sampleCheckinRow.mood_score ≤ 10) ∧
      aiAllOrNothing sampleCheckinRow :=
  checkin_invariant (ValidRecord.created 7 none none sampleCheckinRow (by decide))

/-! ## C8: the API client contract -/

/-- The merged header list always resolves `Content-Type` to the
caller-supplied value when one exists, and to `application/json`
otherwise; the auth header never binds `Content-Type`. -/
theorem getHeader_override (s : Option String)
    (caller : List (String × String)) :
    getHeader (apiFetchHeaders (authHeader s) caller) "Content-Type" =
      some ((getHeader caller "Content-Type").getD "application/json") := by
  unfold getHeader apiFetchHeaders
  rw [List.reverse_append, List.reverse_append, List.find?_append,
    List.find?_append]
  cases hc : caller.reverse.find? (fun p => p.1 == "Content-Type") with
  | some v => simp [hc]
  | none =>
    cases s <;> simp [hc, authHeader]

/-- C8: `apiFetch` throws an error containing the status and body
exactly when the response is not ok, returns the parsed JSON body when
it is ok, and the built headers carry `Content-Type: application/json`
unless the caller's headers override it. -/
theorem apiFetch_contract {α : Type} (res : HttpResponse α)
    (s : Option String) (caller : List (String × String)) :
    ((∃ e, apiFetch res = Except.error e) ↔ res.ok = false) ∧
      (res.ok = false →
        apiFetch res =
          Except.error ("API " ++ toString res.status ++ ": " ++ res.bodyText)) ∧
      (res.ok = true → apiFetch res = Except.ok res.json) ∧
      getHeader (apiFetchHeaders (authHeader s) caller) "Content-Type" =
        some ((getHeader caller "Content-Type").getD "application/json") := by
  refine ⟨?_, ?_, ?_, getHeader_override s caller⟩ <;>
    cases hok : res.ok <;> simp [apiFetch, hok]

/-- Witness for C8: a 500 response with body `boom` yields the error
`API 500: boom`, an ok response yields its JSON value, and a caller
`Content-Type` header overrides the default. -/
theorem apiFetch_contract_witness :
    apiFetch errResponse = Except.error "API 500: boom" ∧
      apiFetch okResponse = Except.ok 7 ∧
      getHeader
        (apiFetchHeaders (authHeader none) [("Content-Type", "text/plain")])
        "Content-Type" = some "text/plain" := by
  refine ⟨?_, ?_, ?_⟩
  · have h := (apiFetch_contract errResponse none []).2.1 rfl
    rw [h]; exact congrArg Except.error (by decide)
  · exact (apiFetch_contract okResponse none []).2.2.1 rfl
  · have h := (apiFetch_contract errResponse none
      [("Content-Type", "text/plain")]).2.2.2
    rw [h]; decide

/-! ## C9: hook state invariants -/

/-- C9: in both `useMoodCheckin` and `usePrescription`, a completed
submit/fetch leaves the state with: `status = "success"` implies
`errorMessage` null and the result/data equal to the API response;
`status = "error"` implies `errorMessage` non-null; and `reset` restores
the idle state with both null. -/
theorem hook_state_contract (st : MoodCheckinState)
    (o : Except String CheckinResponse) (st2 : PrescriptionState)
    (o2 : Except String PrescriptionResponse) :
    ((moodCheckinSubmit st o).status = "success" →
        (moodCheckinSubmit st o).errorMessage = none ∧
          ∃ d, o = Except.ok d ∧ (moodCheckinSubmit st o).result = some d) ∧
      ((moodCheckinSubmit st o).status = "error" →
        (moodCheckinSubmit st o).errorMessage ≠ none) ∧
      moodCheckinReset st =
        { status := "idle", errorMessage := none, result := none } ∧
      ((prescriptionFetch st2 o2).status = "success" →
        (prescriptionFetch st2 o2).errorMessage = none ∧
          ∃ d, o2 = Except.ok d ∧ (prescriptionFetch st2 o2).data = some d) ∧
      ((prescriptionFetch st2 o2).status = "error" →
        (prescriptionFetch st2 o2).errorMessage ≠ none) ∧
      prescriptionReset st2 =
        { status := "idle", errorMessage := none, data := none } := by
  cases o <;> cases o2 <;>
    simp [moodCheckinSubmit, prescriptionFetch, moodCheckinReset,
      prescriptionReset]

/-- Witness for C9: a successful submit stores the response with a null
error message, and reset restores the idle state. -/
theorem hook_state_contract_witness :
    (moodCheckinSubmit idleMoodState (Except.ok checkinResponseW)).errorMessage
        = none ∧
      (moodCheckinSubmit idleMoodState (Except.ok checkinResponseW)).result
        = some checkinResponseW ∧
      prescriptionReset idlePrescriptionState =
        { status := "idle", errorMessage := none, data := none } := by
  obtain ⟨h1, _, _, _, _, h6⟩ := hook_state_contract idleMoodState
    (Except.ok checkinResponseW) idlePrescriptionState
    (Except.ok prescriptionResponseW)
  obtain ⟨he, d, hd, hr⟩ := h1 rfl
  cases hd
  exact ⟨he, hr, h6⟩

/-! ## C10: toggleTag flips exactly one key -/

/-- Membership after one `toggleTag`: the toggled key's membership is
flipped, every other key's membership is unchanged. -/
theorem toggleTag_mem_iff (prev : List String) (key k : String) :
    k ∈ toggleTag key prev ↔ if k = key then key ∉ prev else k ∈ prev := by
  unfold toggleTag
  by_cases hmem : key ∈ prev
  · rw [if_pos (by simpa using hmem)]
    by_cases hk : k = key
    · subst hk
      simp [List.mem_filter, hmem]
    · simp [List.mem_filter, hk]
  · rw [if_neg (by simpa using hmem)]
    by_cases hk : k = key
    · subst hk
      simp [hmem]
    · simp [hk]

/-- C10: on a duplicate-free selected-tags list, `toggleTag` flips
exactly the toggled key's membership and leaves every other key's
membership unchanged; applying it twice with the same key restores the
original membership. -/
theorem toggleTag_membership (prev : List String) (_hnd : prev.Nodup)
    (key k x : String) :
    (k ∈ toggleTag key prev ↔
        if k = key then key ∉ prev else k ∈ prev) ∧
      (x ∈ toggleTag key (toggleTag key prev) ↔ x ∈ prev) := by
  refine ⟨toggleTag_mem_iff prev key k, ?_⟩
  rw [toggleTag_mem_iff (toggleTag key prev) key x]
  have h1 : key ∈ toggleTag key prev ↔ key ∉ prev := by
    have := toggleTag_mem_iff prev key key
    rwa [if_pos rfl] at this
  by_cases hx : x = key
  · subst hx
    rw [if_pos rfl]
    rw [h1]
    exact not_not
  · rw [if_neg hx]
    have h2 := toggleTag_mem_iff prev key x
    rwa [if_neg hx] at h2

/-- Witness for C10: toggling `calm` on `[happy, focused]` adds it,
toggling it again restores the original membership. -/
theorem toggleTag_membership_witness :
    ("calm" ∈ toggleTag "calm" ["happy", "focused"] ↔
        if "calm" = "calm" then "calm" ∉ ["happy", "focused"]
        else "calm" ∈ ["happy", "focused"]) ∧
      ("happy" ∈ toggleTag "calm" (toggleTag "calm" ["happy", "focused"]) ↔
        "happy" ∈ ["happy", "focused"]) :=
  toggleTag_membership ["happy", "focused"] (by decide) "calm" "calm" "happy"

end Mindrep


